import Mathlib

/-!
Verification of the JobInfo WhatsApp dispatcher and workflow core.

This file shallowly embeds the data model (`app/db/models.py`), the job-code
codec (`app/services/job_code.py`), the entitlement predicate and the seeker /
recruiter workflow handlers (`app/handlers/seeker.py`, `app/handlers/recruiter.py`),
the global-interrupt handler (`app/handlers/global_handler.py`), the central
dispatcher (`app/handlers/dispatcher.py`) and the webhook route
(`app/routers/webhook.py`).

Modelling conventions:
  * time is a `Nat` (seconds since epoch); `timedelta(days = d)` is `d * 86400`;
  * each SQLAlchemy table is a `List` of records inside a `DB` structure;
    `unique=True` columns are enforced by the insert helpers, which return an
    `integrityError` exactly where `db.commit()` would raise `IntegrityError`;
  * outbound WhatsApp calls and log lines are collected in an `Effect` list;
  * Python exceptions are an `Option PyError` carried alongside the state so
    that writes committed before a raise survive it, as they do in the source;
  * `None`-able ORM columns are `Option` fields; Python truthiness of a string
    (`if flow_data.get(k)`) treats the empty string as false.
-/

namespace JobInfo

/-- `VacancyStatus` enum from `app/db/models.py`. -/
inductive VacancyStatus where
  | pending
  | approved
  | rejected
deriving DecidableEq

/-- `ApplicationStatus` enum from `app/db/models.py`. -/
inductive ApplicationStatus where
  | applied
  | shortlisted
  | rejected
deriving DecidableEq

/-- `SubscriptionPlanName` enum from `app/db/models.py`. -/
inductive PlanName where
  | free_trial
  | basic
  | popular
  | advanced
deriving DecidableEq

/-- `.value` of a `SubscriptionPlanName` member. -/
def PlanName.value : PlanName → String
  | .free_trial => "free_trial"
  | .basic => "basic"
  | .popular => "popular"
  | .advanced => "advanced"

/-- `.value` of an `ApplicationStatus` member. -/
def ApplicationStatus.value : ApplicationStatus → String
  | .applied => "applied"
  | .shortlisted => "shortlisted"
  | .rejected => "rejected"

/-- `SubscriptionPlan` row (static catalog). -/
structure SubscriptionPlan where
  id : Nat
  name : PlanName
  display_name : String
  price_inr : Nat
  duration_days : Nat
  max_applications : Option Nat
deriving DecidableEq

/-- `Recruiter` row.  `wa_number` carries `unique=True` in the schema. -/
structure Recruiter where
  id : Nat
  wa_number : String
  name : String
  company : Option String
  location : Option String
  email : Option String
deriving DecidableEq

/-- `Candidate` row.  `wa_number` carries `unique=True` in the schema. -/
structure Candidate where
  id : Nat
  wa_number : String
  name : String
  location : Option String
  skills : Option String
  cv_path : Option String
  cv_updates_used : Nat
  subscription_plan_id : Option Nat
  plan_expiry : Option Nat
  applications_used : Nat
  free_trial_used : Bool
  registration_complete : Bool
deriving DecidableEq

/-- `JobVacancy` row.  `job_code` carries `unique=True` in the schema. -/
structure JobVacancy where
  id : Nat
  job_code : String
  recruiter_id : Nat
  title : String
  company : Option String
  location : String
  description : Option String
  salary_range : Option String
  experience_required : Option String
  contact_info : Option String
  status : VacancyStatus
  rejection_reason : Option String
deriving DecidableEq

/-- `CandidateApplication` row. -/
structure CandidateApplication where
  id : Nat
  candidate_id : Nat
  vacancy_id : Nat
  status : ApplicationStatus
deriving DecidableEq

/-- `CallbackRequest` row. -/
structure CallbackRequest where
  id : Nat
  wa_number : String
  resolved : Bool
deriving DecidableEq

/-- `ConversationState` row; `context` is the schemaless JSON blob, modelled
as a string-to-string association list. -/
structure ConversationState where
  wa_number : String
  state : String
  context : List (String × String)
deriving DecidableEq

/-- The persistent store: one list per table, plus autoincrement counters for
primary keys. -/
structure DB where
  plans : List SubscriptionPlan
  recruiters : List Recruiter
  candidates : List Candidate
  vacancies : List JobVacancy
  applications : List CandidateApplication
  callbacks : List CallbackRequest
  states : List ConversationState
  next_recruiter_id : Nat
  next_vacancy_id : Nat
  next_candidate_id : Nat
  next_application_id : Nat
  next_callback_id : Nat
deriving DecidableEq

/-- The slice of `app/config.py` `Settings` the core reads. -/
structure Settings where
  subscription_enabled : Bool
  admin_wa_number : String
deriving DecidableEq

/-- Outbound side effects: WhatsApp client calls and log lines. -/
inductive Effect where
  | sendText (dest body : String)
  | sendButtons (dest body : String) (buttons : List (String × String))
  | sendList (dest body : String) (rows : List (String × String × String))
  | sendFlow (dest flow_id body : String)
  | sendTemplate (dest template_name : String)
  | logDebug (msg : String)
  | logInfo (msg : String)
  | logWarning (msg : String)
  | logError (msg : String)
  | logException (msg : String)
deriving DecidableEq

/-- Python exceptions that can cross handler boundaries in this core. -/
inductive PyError where
  | valueError
  | keyError
  | indexError
  | integrityError
deriving DecidableEq

/-- Does the effect deliver a message to `who` (as opposed to only logging)? -/
def Effect.sentTo (e : Effect) (who : String) : Bool :=
  match e with
  | .sendText d _ => d == who
  | .sendButtons d _ _ => d == who
  | .sendList d _ _ => d == who
  | .sendFlow d _ _ => d == who
  | .sendTemplate d _ => d == who
  | _ => false

/-- Is the effect an outbound send at all? -/
def Effect.isSend (e : Effect) : Bool :=
  match e with
  | .sendText _ _ => true
  | .sendButtons _ _ _ => true
  | .sendList _ _ _ => true
  | .sendFlow _ _ _ => true
  | .sendTemplate _ _ => true
  | _ => false

-- ── Row lookups (SQLAlchemy `query(...).filter_by(...).first()`) ─────────────

/-- `db.query(Candidate).filter_by(wa_number=...).first()`. -/
def DB.findCandidate (db : DB) (wa : String) : Option Candidate :=
  db.candidates.find? (fun c => c.wa_number == wa)

/-- `db.query(Recruiter).filter_by(wa_number=...).first()`. -/
def DB.findRecruiter (db : DB) (wa : String) : Option Recruiter :=
  db.recruiters.find? (fun r => r.wa_number == wa)

/-- `db.query(JobVacancy).filter_by(id=...).first()` (id may be a negative
Python int coming from `int()` parsing). -/
def DB.findVacancyById (db : DB) (vid : Int) : Option JobVacancy :=
  db.vacancies.find? (fun v => (v.id : Int) == vid)

/-- `db.query(JobVacancy).filter_by(job_code=...).first()`. -/
def DB.findVacancyByCode (db : DB) (code : String) : Option JobVacancy :=
  db.vacancies.find? (fun v => v.job_code == code)

/-- `db.query(SubscriptionPlan).filter_by(name=plan_name).first()`, with the
enum column compared at the SQL level by its string value. -/
def DB.findPlanByName (db : DB) (plan_name : String) : Option SubscriptionPlan :=
  db.plans.find? (fun p => p.name.value == plan_name)

/-- `candidate.plan` relationship: the catalog row whose id is
`candidate.subscription_plan_id`. -/
def DB.planOf (db : DB) (c : Candidate) : Option SubscriptionPlan :=
  match c.subscription_plan_id with
  | none => none
  | some pid => db.plans.find? (fun p => p.id == pid)

/-- `db.query(ConversationState).filter_by(wa_number=...).first()`. -/
def DB.findState (db : DB) (wa : String) : Option ConversationState :=
  db.states.find? (fun s => s.wa_number == wa)

/-- Replace the candidate row with id `cid` (an ORM attribute write + commit). -/
def DB.updateCandidate (db : DB) (cid : Nat) (f : Candidate → Candidate) : DB :=
  { db with candidates := db.candidates.map (fun c => if c.id == cid then f c else c) }

-- ── Conversation-state helpers (`_get_or_create_state` / `_set_state`) ───────

/-- `_get_or_create_state` from `seeker.py` / `recruiter.py`: returns the state
row, inserting `state="idle", context={}` when absent.  Returns the row and the
possibly-grown store. -/
def DB.getOrCreateState (db : DB) (wa : String) : ConversationState × DB :=
  match db.findState wa with
  | some s => (s, db)
  | none =>
      let s : ConversationState := { wa_number := wa, state := "idle", context := [] }
      (s, { db with states := db.states ++ [s] })

/-- `_set_state`: get-or-create the row, then overwrite tag and context. -/
def DB.setState (db : DB) (wa state : String) (context : List (String × String)) : DB :=
  let db1 := (db.getOrCreateState wa).2
  { db1 with
    states := db1.states.map (fun s =>
      if s.wa_number == wa then { s with state := state, context := context } else s) }

-- ── Job-code codec (`app/services/job_code.py`) ──────────────────────────────

/-- `db.query(JobVacancy).order_by(JobVacancy.id.desc()).first()`: the row with
the greatest primary key, or `none` on an empty table. -/
def lastVacancyByIdDesc : List JobVacancy → Option JobVacancy
  | [] => none
  | v :: vs =>
      match lastVacancyByIdDesc vs with
      | none => some v
      | some w => if w.id > v.id then some w else some v

/-- `generate_job_code`: `last.id + 1` when a row exists, else `1001`,
rendered as `JC:<digits>`. -/
def generate_job_code (db : DB) : String :=
  let last := lastVacancyByIdDesc db.vacancies
  let next_num : Nat :=
    match last with
    | some v => v.id + 1
    | none => 1001
  "JC:" ++ toString next_num

/-- Is the first character a decimal digit?  (The `\d` after `JC:`.) -/
def jcHeadDigit : List Char → Bool
  | d :: _ => d.isDigit
  | [] => false

/-- One attempt of the regex `(JC:\d+)` with `re.IGNORECASE` anchored at the
head of the character list: `[Jj][Cc]:` followed by at least one digit, the
`\d+` taken greedily. -/
def jcHere : List Char → Option (List Char)
  | j :: c :: k :: rest =>
      if (j == 'J' || j == 'j') && (c == 'C' || c == 'c') && k == ':'
          && jcHeadDigit rest then
        some (j :: c :: k :: rest.takeWhile Char.isDigit)
      else
        none
  | _ => none

/-- `re.search`: the leftmost position at which `jcHere` matches. -/
def searchJC : List Char → Option (List Char)
  | [] => none
  | x :: rest =>
      match jcHere (x :: rest) with
      | some m => some m
      | none => searchJC rest

/-- `parse_job_code`: leftmost case-insensitive `JC:\d+` match anywhere in the
text, uppercased; `none` when the pattern does not occur. -/
def parse_job_code (text : String) : Option String :=
  (searchJC text.data).map (fun m => String.mk (m.map Char.toUpper))

-- ── Entitlement engine (`_has_active_plan` in `seeker.py`) ───────────────────

/-- `_has_active_plan`: free-for-all when enforcement is off; otherwise false
when `plan_expiry` is unset or already passed, or when the related plan row
caps `max_applications` and the counter has reached it. -/
def has_active_plan (s : Settings) (db : DB) (c : Candidate) (now : Nat) : Bool :=
  if !s.subscription_enabled then
    true
  else
    match c.plan_expiry with
    | none => false
    | some expiry =>
        if expiry < now then
          false
        else
          match db.planOf c with
          | some plan =>
              match plan.max_applications with
              | some cap => !(c.applications_used ≥ cap)
              | none => true
          | none => true

/-- Modelled from the spec (§4.5), for comparison with `has_active_plan`:
"if subscription enforcement is globally disabled, always true. Else false if
no plan assigned, or `plan_expiry` has passed, or the assigned plan defines a
finite `max_applications` and `applications_used >= max_applications`."
An unset `plan_expiry` is read as not-yet-passed, which the spec leaves
unstated. -/
def has_active_plan_spec (s : Settings) (db : DB) (c : Candidate) (now : Nat) : Bool :=
  if !s.subscription_enabled then
    true
  else if c.subscription_plan_id.isNone then
    false
  else if (match c.plan_expiry with
           | some expiry => decide (expiry < now)
           | none => false) then
    false
  else
    match db.planOf c with
    | some plan =>
        match plan.max_applications with
        | some cap => !(c.applications_used ≥ cap)
        | none => true
    | none => true

-- ── Shared Python helpers ────────────────────────────────────────────────────

/-- Python `x or default` on a `None`-able string: `None` and `""` are falsy. -/
def pyOr (v : Option String) (d : String) : String :=
  match v with
  | some x => if x == "" then d else x
  | none => d

/-- Python truthiness of a `None`-able string value. -/
def pyTruthy (v : Option String) : Option String :=
  match v with
  | some x => if x == "" then none else some x
  | none => none

/-- A submitted flow/form payload: the decoded JSON dict. -/
def FlowData := List (String × String)

/-- `flow_data.get(k)` (first binding wins, like a dict with unique keys). -/
def fdLookup (fd : FlowData) (k : String) : Option String :=
  (fd.find? (fun p => p.1 == k)).map (fun p => p.2)

/-- `flow_data.get(k, d)`. -/
def fdGetD (fd : FlowData) (k d : String) : String :=
  (fdLookup fd k).getD d

/-- `k in flow_data`. -/
def fdHasKey (fd : FlowData) (k : String) : Bool :=
  fd.any (fun p => p.1 == k)

-- ── Template bodies (`app/whatsapp/templates.py`) ────────────────────────────

/-- `plan_renewal_body`. -/
def plan_renewal_body (c : Candidate) : String :=
  "⚠️ *No Active Plan*\n\nHi " ++ c.name ++
    ", your subscription has expired or you've used all your applications.\n\n" ++
    "Renew your plan to keep applying.\n_JobInfo_"

/-- `registration_confirmation_body`. -/
def registration_confirmation_body (name user_type : String) : String :=
  if user_type == "recruiter" then
    "🎉 *Welcome to JobInfo, " ++ name ++ "!*\n\nYour recruiter account is ready.\n\n_JobInfo_"
  else
    "🎉 *Registration Successful, " ++ name ++ "!*\n\nYou're now part of JobInfo!\n\n_JobInfo_"

/-- `seeker_job_detail_body`. -/
def seeker_job_detail_body (v : JobVacancy) : String :=
  "📋 *Job Details*\n\n*Title:* " ++ v.title ++
    "\n*Company:* " ++ pyOr v.company "—" ++
    "\n*Location:* " ++ v.location ++
    "\n*Experience:* " ++ pyOr v.experience_required "—" ++
    "\n*Salary:* " ++ pyOr v.salary_range "Not disclosed" ++
    "\n\n*Description:*\n" ++ pyOr v.description "—" ++
    "\n\nReady to apply? Tap *Apply Now* below."

/-- `application_confirmation_body`. -/
def application_confirmation_body (c : Candidate) (v : JobVacancy) : String :=
  "✅ *Application Submitted!*\n\nHi " ++ c.name ++
    ",\n\nYou have successfully applied for:\n*" ++ v.title ++ "* at *" ++
    pyOr v.company "—" ++ "*\n*Location:* " ++ v.location ++ "\n\n_JobInfo_"

/-- `cv_update_confirmation_body`. -/
def cv_update_confirmation_body (c : Candidate) : String :=
  "✅ *CV Updated Successfully!*\n\nHi " ++ c.name ++ ", your CV has been updated.\n_JobInfo_"

/-- `vacancy_confirmation_body`. -/
def vacancy_confirmation_body (v : JobVacancy) : String :=
  "✅ *Vacancy Posted Successfully!*\n\n*Job Code:* " ++ v.job_code ++
    "\n*Title:* " ++ v.title ++ "\n*Location:* " ++ v.location ++
    "\n\nYour vacancy is under review.\n\n_JobInfo – Connecting Kerala's talent_"

/-- `admin_vacancy_alert_body`. -/
def admin_vacancy_alert_body (v : JobVacancy) (r : Recruiter) : String :=
  "🔔 *New Vacancy Submitted – Action Required*\n\n*Job Code:* " ++ v.job_code ++
    "\n*Title:* " ++ v.title ++
    "\n*Company:* " ++ pyOr v.company (pyOr r.company "—") ++
    "\n*Location:* " ++ v.location ++
    "\n*Recruiter:* " ++ r.name ++ " (" ++ r.wa_number ++ ")" ++
    "\n\n*Description:*\n" ++ pyOr v.description "—"

-- ── Seeker workflow (`app/handlers/seeker.py`) ───────────────────────────────

namespace seeker

/-- The external media store `save_cv_from_whatsapp(wa, media_id, mime)`:
returns the stored path, or `none` for a rejected format. -/
def SaveCv := String → String → String → Option String

/-- `_show_job_apply_prompt`: entitlement gate, then the duplicate-application
gate, then the Apply-Now / Update-CV buttons plus the `seeker_viewing_job`
state write. -/
def show_job_apply_prompt (s : Settings) (now : Nat) (wa : String)
    (c : Candidate) (v : JobVacancy) (db : DB) : DB × List Effect :=
  if !(has_active_plan s db c now) then
    (db, [.sendText wa (plan_renewal_body c)])
  else
    match db.applications.find? (fun a => a.candidate_id == c.id && a.vacancy_id == v.id) with
    | some existing =>
        (db, [.sendText wa ("ℹ️ You have already applied for *" ++ v.title ++
          "*. Status: _" ++ existing.status.value ++ "_")])
    | none =>
        let db1 := db.setState wa "seeker_viewing_job"
          [("vacancy_id", toString v.id), ("job_code", v.job_code)]
        (db1, [.sendButtons wa (seeker_job_detail_body v)
          [("btn_apply_now_" ++ toString v.id, "Apply Now"),
           ("btn_update_cv_" ++ toString v.id, "Update CV")]])

/-- `start`: entry via an apply link; dead-end reply when the code resolves to
nothing approved; register/callback choices for unregistered or incomplete
candidates, else the job-detail prompt. -/
def start (s : Settings) (now : Nat) (wa job_code : String) (db : DB) :
    DB × List Effect :=
  let vacancy := db.findVacancyByCode job_code
  match vacancy with
  | none =>
      (db, [.sendText wa "❌ This vacancy is no longer available. Browse latest jobs in our channel."])
  | some v =>
      if v.status ≠ .approved then
        (db, [.sendText wa "❌ This vacancy is no longer available. Browse latest jobs in our channel."])
      else
        match db.findCandidate wa with
        | some c =>
            if c.registration_complete then
              show_job_apply_prompt s now wa c v db
            else
              (db.setState wa "seeker_pre_register" [("pending_job_code", job_code)],
               [.sendButtons wa ("📋 *" ++ v.title ++ "* | " ++ v.location ++
                  "\n\nTo apply, you need to register first.")
                  [("btn_register_" ++ job_code, "Register Now"), ("btn_callback", "Call Back")]])
        | none =>
            (db.setState wa "seeker_pre_register" [("pending_job_code", job_code)],
             [.sendButtons wa ("📋 *" ++ v.title ++ "* | " ++ v.location ++
                "\n\nTo apply, you need to register first.")
                [("btn_register_" ++ job_code, "Register Now"), ("btn_callback", "Call Back")]])

/-- `handle_callback_button`. -/
def handle_callback_button (wa : String) (db : DB) : DB × List Effect :=
  let db1 := { db with
    callbacks := db.callbacks ++
      [({ id := db.next_callback_id, wa_number := wa, resolved := false } : CallbackRequest)],
    next_callback_id := db.next_callback_id + 1 }
  let db2 := db1.setState wa "idle" []
  (db2, [.sendText wa "📞 *Callback Requested!*\n\nOur team will contact you shortly.\n_JobInfo_"])

/-- `handle_register_button`. -/
def handle_register_button (wa job_code : String) (db : DB) : DB × List Effect :=
  (db.setState wa "seeker_registering" [("pending_job_code", job_code)],
   [.sendFlow wa "778992404800985" "📝 *Quick Registration*"])

/-- `_send_plan_selection`: list every catalog plan, then move the state to
`seeker_selecting_plan` with an empty context. -/
def send_plan_selection (wa : String) (db : DB) : DB × List Effect :=
  let rows := db.plans.map (fun p =>
    ("plan_" ++ p.name.value,
     p.display_name ++ " – ₹" ++ toString p.price_inr,
     toString p.duration_days ++ " days"))
  (db.setState wa "seeker_selecting_plan" [],
   [.sendList wa "🎉 Registration info saved!\n\nChoose a subscription plan to start applying for jobs." rows])

/-- `handle_plan_selection`: activate a catalog plan; a second free-trial
selection after `free_trial_used` is refused and the list is re-offered. -/
def handle_plan_selection (s : Settings) (now : Nat) (wa plan_name : String)
    (db : DB) : DB × List Effect :=
  match db.findCandidate wa with
  | none => (db, [])
  | some candidate =>
      match db.findPlanByName plan_name with
      | none => (db, [])
      | some plan =>
          if plan.name = .free_trial ∧ candidate.free_trial_used then
            let warn := Effect.sendText wa "⚠️ You've already used the Free Trial. Please choose a paid plan."
            let (db1, eff1) := send_plan_selection wa db
            (db1, warn :: eff1)
          else
            let db1 := db.updateCandidate candidate.id (fun c =>
              { c with
                subscription_plan_id := some plan.id,
                plan_expiry := some (now + plan.duration_days * 86400),
                applications_used := 0,
                registration_complete := true,
                free_trial_used := if plan.name = .free_trial then true else c.free_trial_used })
            let confirm := Effect.sendText wa (registration_confirmation_body candidate.name "candidate")
            let (state, db2) := db1.getOrCreateState wa
            match pyTruthy (fdLookup state.context "pending_job_code") with
            | none => (db2, [confirm])
            | some pending_code =>
                match db2.findVacancyByCode pending_code with
                | none => (db2, [confirm])
                | some v =>
                    match db2.findCandidate wa with
                    | none => (db2, [confirm])
                    | some c' =>
                        let (db3, eff3) := show_job_apply_prompt s now wa c' v db2
                        (db3, confirm :: eff3)

/-- `handle_apply_now_button`: silent return when candidate or vacancy is
missing; renewal notice when the entitlement re-check fails; otherwise insert
the application, bump `applications_used`, confirm, reset state to idle.
There is no duplicate-application check here. -/
def handle_apply_now_button (s : Settings) (now : Nat) (wa : String)
    (vacancy_id : Int) (db : DB) : DB × List Effect :=
  match db.findCandidate wa, db.findVacancyById vacancy_id with
  | some candidate, some vacancy =>
      if !(has_active_plan s db candidate now) then
        (db, [.sendText wa (plan_renewal_body candidate)])
      else
        let db1 := { db with
          applications := db.applications ++
            [({ id := db.next_application_id,
                candidate_id := candidate.id,
                vacancy_id := vacancy.id,
                status := .applied } : CandidateApplication)],
          next_application_id := db.next_application_id + 1 }
        let db2 := db1.updateCandidate candidate.id (fun c =>
          { c with applications_used := c.applications_used + 1 })
        let db3 := db2.setState wa "idle" []
        (db3, [.sendButtons wa (application_confirmation_body candidate vacancy)
                 [("btn_view_applications", "View Applications")]])
  | _, _ => (db, [])

/-- `handle_update_cv_button`. -/
def handle_update_cv_button (wa : String) (vacancy_id : Int) (db : DB) :
    DB × List Effect :=
  (db.setState wa "seeker_updating_cv" [("vacancy_id", toString vacancy_id)],
   [.sendFlow wa "1830313444154607" "📄 *Update Your CV*"])

/-- `handle_cv_update_flow_completion`. -/
def handle_cv_update_flow_completion (saveCv : SaveCv) (wa : String)
    (fd : FlowData) (db : DB) : DB × List Effect :=
  match pyTruthy (fdLookup fd "media_id") with
  | none => (db, [.sendText wa "⚠️ No file received. Please try again."])
  | some media_id =>
      match pyTruthy (saveCv wa media_id (fdGetD fd "mime_type" "application/pdf")) with
      | none => (db, [.sendText wa "❌ Invalid file format. Please upload a PDF or CSV file."])
      | some cv_path =>
          match db.findCandidate wa with
          | some candidate =>
              let db1 := db.updateCandidate candidate.id (fun c =>
                { c with cv_path := some cv_path, cv_updates_used := c.cv_updates_used + 1 })
              let db2 := db1.setState wa "idle" []
              (db2, [.sendText wa (cv_update_confirmation_body candidate)])
          | none =>
              (db.setState wa "idle" [], [])

/-- `handle_view_applications_button` (read-only). -/
def handle_view_applications_button (wa : String) (db : DB) : DB × List Effect :=
  match db.findCandidate wa with
  | none => (db, [])
  | some candidate =>
      let apps := (db.applications.filter (fun a => a.candidate_id == candidate.id)).take 10
      if apps.isEmpty then
        (db, [.sendText wa "You haven't applied for any jobs yet."])
      else
        (db, [.sendText wa ("📂 *Your Applications (" ++ toString apps.length ++ "):*")])

/-- `handle_registration_flow_completion` (seeker): CV save, candidate upsert,
then plan selection (enforcement on) or immediate completion plus resume of a
pending job-detail step (enforcement off). -/
def handle_registration_flow_completion (s : Settings) (saveCv : SaveCv)
    (now : Nat) (wa : String) (fd : FlowData) (db : DB) : DB × List Effect :=
  let cv_path : Option String :=
    match pyTruthy (fdLookup fd "media_id") with
    | some media_id => saveCv wa media_id (fdGetD fd "mime_type" "application/pdf")
    | none => none
  let db1 :=
    match db.findCandidate wa with
    | none =>
        { db with
          candidates := db.candidates ++
            [{ id := db.next_candidate_id,
               wa_number := wa,
               name := fdGetD fd "name" "",
               location := fdLookup fd "location",
               skills := fdLookup fd "skills",
               cv_path := cv_path,
               cv_updates_used := 0,
               subscription_plan_id := none,
               plan_expiry := none,
               applications_used := 0,
               free_trial_used := false,
               registration_complete := false }],
          next_candidate_id := db.next_candidate_id + 1 }
    | some candidate =>
        db.updateCandidate candidate.id (fun c =>
          { c with
            name := fdGetD fd "name" c.name,
            location := some (fdGetD fd "location" (c.location.getD "")),
            skills := some (fdGetD fd "skills" (c.skills.getD "")),
            cv_path := match pyTruthy cv_path with
                       | some p => some p
                       | none => c.cv_path })
  if s.subscription_enabled then
    send_plan_selection wa db1
  else
    match db1.findCandidate wa with
    | none => (db1, [])
    | some candidate =>
        let db2 := db1.updateCandidate candidate.id (fun c =>
          { c with registration_complete := true })
        let confirm := Effect.sendText wa (registration_confirmation_body candidate.name "candidate")
        let (state, db3) := db2.getOrCreateState wa
        let pending_code :=
          match pyTruthy (fdLookup state.context "pending_job_code") with
          | some p => some p
          | none => pyTruthy (fdLookup fd "pending_job_code")
        match pending_code with
        | none => (db3, [confirm])
        | some code =>
            match db3.findVacancyByCode code with
            | none => (db3, [confirm])
            | some v =>
                match db3.findCandidate wa with
                | none => (db3, [confirm])
                | some c' =>
                    let (db4, eff4) := show_job_apply_prompt s now wa c' v db3
                    (db4, confirm :: eff4)

end seeker

-- ── Recruiter workflow (`app/handlers/recruiter.py`) ─────────────────────────

namespace recruiter

/-- `start`: returning recruiters get the welcome template and `recruiter_idle`;
new numbers get the registration flow and `recruiter_registering`. -/
def start (wa : String) (db : DB) : DB × List Effect :=
  match db.findRecruiter wa with
  | some _ =>
      (db.setState wa "recruiter_idle" [], [.sendTemplate wa "jobinfo_welcome_recruiter"])
  | none =>
      (db.setState wa "recruiter_registering" [],
       [.sendFlow wa "1453423649718282" "👋 Welcome to *JobInfo*!"])

/-- `handle_registration_flow_completion` (recruiter): unconditionally builds a
new `Recruiter` and commits it.  The schema's `unique=True` on `wa_number`
makes the commit raise `IntegrityError` when a row for the address already
exists; the handler catches nothing. -/
def handle_registration_flow_completion (wa : String) (fd : FlowData) (db : DB) :
    DB × List Effect × Option PyError :=
  if db.recruiters.any (fun r => r.wa_number == wa) then
    (db, [], some .integrityError)
  else
    let r : Recruiter :=
      { id := db.next_recruiter_id,
        wa_number := wa,
        name := fdGetD fd "name" "",
        company := fdLookup fd "company",
        location := fdLookup fd "location",
        email := fdLookup fd "email" }
    let db1 := { db with
      recruiters := db.recruiters ++ [r],
      next_recruiter_id := db.next_recruiter_id + 1 }
    let db2 := db1.setState wa "recruiter_idle" []
    (db2,
     [.sendText wa (registration_confirmation_body r.name "recruiter"),
      .sendTemplate wa "jobinfo_welcome_recruiter"],
     none)

/-- `handle_post_vacancy_flow_completion`: requires an existing recruiter (log
error and stop otherwise); allocates a job code, inserts a `pending` vacancy,
confirms to the recruiter, alerts the admin number when configured and resets
the state to `recruiter_idle`.  A job-code collision would violate the unique
column and raise `IntegrityError` at commit. -/
def handle_post_vacancy_flow_completion (s : Settings) (wa : String)
    (fd : FlowData) (db : DB) : DB × List Effect × Option PyError :=
  match db.findRecruiter wa with
  | none =>
      (db, [.logError ("Post vacancy flow completed but recruiter " ++ wa ++ " not found")], none)
  | some r =>
      let job_code := generate_job_code db
      if db.vacancies.any (fun v => v.job_code == job_code) then
        (db, [], some .integrityError)
      else
        let v : JobVacancy :=
          { id := db.next_vacancy_id,
            job_code := job_code,
            recruiter_id := r.id,
            title := fdGetD fd "title" "",
            company := (match pyTruthy (fdLookup fd "company") with
                        | some c => some c
                        | none => r.company),
            location := fdGetD fd "location" "",
            description := fdLookup fd "description",
            salary_range := fdLookup fd "salary_range",
            experience_required := fdLookup fd "experience_required",
            contact_info := fdLookup fd "contact_info",
            status := .pending,
            rejection_reason := none }
        let db1 := { db with
          vacancies := db.vacancies ++ [v],
          next_vacancy_id := db.next_vacancy_id + 1 }
        let adminEff : List Effect :=
          if s.admin_wa_number == "" then []
          else [.sendText s.admin_wa_number (admin_vacancy_alert_body v r)]
        let db2 := db1.setState wa "recruiter_idle" []
        (db2, .sendText wa (vacancy_confirmation_body v) :: adminEff, none)

/-- `handle_my_vacancies_button` (read-only). -/
def handle_my_vacancies_button (wa : String) (db : DB) : DB × List Effect :=
  match db.findRecruiter wa with
  | none => (db, [.sendText wa "⚠️ You are not registered as a recruiter."])
  | some r =>
      let vacancies := (db.vacancies.filter (fun v => v.recruiter_id == r.id)).take 10
      if vacancies.isEmpty then
        (db, [.sendText wa "You haven't posted any vacancies yet."])
      else
        (db, [.sendText wa "📋 *Your Vacancies:*"])

/-- `handle_post_vacancy_button`. -/
def handle_post_vacancy_button (wa : String) (db : DB) : DB × List Effect :=
  (db.setState wa "recruiter_posting_vacancy" [],
   [.sendFlow wa "4438148733098809" "📝 *Post a New Vacancy*"])

end recruiter

-- ── Global interrupt handler (`app/handlers/global_handler.py`) ──────────────

namespace global_handler

/-- `_reset_state`: set tag `idle` and clear context, only when a row exists. -/
def reset_state (wa : String) (db : DB) : DB :=
  match db.findState wa with
  | none => db
  | some _ =>
      { db with states := db.states.map (fun s =>
          if s.wa_number == wa then { s with state := "idle", context := [] } else s) }

/-- `send_help_menu`. -/
def send_help_menu (wa : String) : List Effect :=
  [.sendButtons wa "👋 *Welcome to JobInfo!*"
     [("menu_recruiter", "I am a Recruiter"),
      ("menu_seeker", "I am a Job Seeker"),
      ("menu_how_it_works", "How it works")]]

/-- `handle_global_button`: the global-interrupt table; the Bool reports
whether the button was handled here. -/
def handle_global_button (wa button_id : String) (db : DB) :
    Bool × DB × List Effect :=
  if button_id == "menu_how_it_works" then
    (true, reset_state wa db, [.sendText wa "ℹ️ *How JobInfo Works*"])
  else if button_id == "menu_recruiter" then
    let (db1, eff) := recruiter.start wa db
    (true, db1, eff)
  else if button_id == "menu_seeker" then
    (true, db, [.sendText wa "🔍 To apply for a job, tap any job apply link from our WhatsApp Channel."])
  else
    (false, db, [])

end global_handler

-- ── Python `int()` and `str` helpers used by the dispatcher ──────────────────

/-- Validity of the part of a Python `int()` literal after the first digit:
single underscores are allowed, but only between digits. -/
def pyDigitsRest : List Char → Bool
  | [] => true
  | '_' :: rest =>
      match rest with
      | d :: rest2 => d.isDigit && pyDigitsRest rest2
      | [] => false
  | d :: rest => d.isDigit && pyDigitsRest rest

/-- A valid Python decimal digit run: nonempty, digits with single
underscores strictly between digits. -/
def pyDigitsValid : List Char → Bool
  | [] => false
  | d :: rest => d.isDigit && pyDigitsRest rest

/-- Numeric value of a digit run, skipping grouping underscores. -/
def pyDigitsVal (l : List Char) : Nat :=
  l.foldl (fun acc c => if c == '_' then acc else acc * 10 + (c.toNat - '0'.toNat)) 0

/-- Model of Python `int(str)`: strip surrounding whitespace, optional sign,
then a valid digit run; `none` exactly where `int()` raises `ValueError`. -/
def int_of_string (str : String) : Option Int :=
  let t := ((str.data.dropWhile Char.isWhitespace).reverse.dropWhile Char.isWhitespace).reverse
  match t with
  | '+' :: rest => if pyDigitsValid rest then some (pyDigitsVal rest : Int) else none
  | '-' :: rest => if pyDigitsValid rest then some (-(pyDigitsVal rest : Int)) else none
  | rest => if pyDigitsValid rest then some (pyDigitsVal rest : Int) else none

/-- `list`-level version of `str.startswith`. -/
def listHasPre : List Char → List Char → Bool
  | [], _ => true
  | _ :: _, [] => false
  | p :: ps, s :: ss => p == s && listHasPre ps ss

/-- `s.startswith(p)`. -/
def strStartsWith (s p : String) : Bool :=
  listHasPre p.data s.data

/-- `s.removeprefix(p)`. -/
def strRemovePre (s p : String) : String :=
  if strStartsWith s p then String.mk (s.data.drop p.data.length) else s

-- ── Dispatcher (`app/handlers/dispatcher.py`) ────────────────────────────────

/-- A normalized inbound event, the result of the dispatcher's payload-shape
destructuring.  `malformed` stands for any payload whose field access raises
`KeyError`/`IndexError` inside the `try` block. -/
inductive InEvent where
  | textMsg (wa body : String)
  | buttonReply (wa button_id : String)
  | listReply (wa row_id : String)
  | flowReply (wa : String) (fd : FlowData)
  | templateButton (wa payload : String)
  | document (wa media_id mime : String)
  | statusUpdate
  | malformed

/-- `_track_user_message`: ensures a ConversationState row exists (tag `idle`).
The `last_user_message_at` assignment in the source touches an attribute that
is not a mapped column of `ConversationState`, so no persistent field changes
when the row already exists. -/
def track_user_message (wa : String) (db : DB) : DB :=
  match db.findState wa with
  | some _ => db
  | none => { db with states := db.states ++ [{ wa_number := wa, state := "idle", context := [] }] }

/-- `_handle_text`: recruiter keywords, then job-code extraction, then the
`renew` keyword (which fires the plan-selection list as a detached task), else
the help menu. -/
def handle_text (s : Settings) (now : Nat) (wa text : String) (db : DB) :
    DB × List Effect :=
  let normalized := text.trim.toLower
  if normalized == "my vacancy" || normalized == "my vacancies" then
    recruiter.start wa db
  else
    match parse_job_code text with
    | some job_code => seeker.start s now wa job_code db
    | none =>
        if normalized == "renew" then
          seeker.send_plan_selection wa db
        else
          (db, global_handler.send_help_menu wa)

/-- `_handle_button`: global-interrupt table first, then the static ids, then
the three prefix patterns.  The numeric patterns call `int()` on the suffix,
which raises `ValueError` on a non-numeric suffix — nothing here catches it. -/
def handle_button (s : Settings) (now : Nat) (wa button_id : String) (db : DB) :
    DB × List Effect × Option PyError :=
  let (handled, db1, eff1) := global_handler.handle_global_button wa button_id db
  if handled then
    (db1, eff1, none)
  else if button_id == "btn_post_vacancy" then
    let (db2, eff2) := recruiter.handle_post_vacancy_button wa db1
    (db2, eff1 ++ eff2, none)
  else if button_id == "btn_my_vacancies" then
    let (db2, eff2) := recruiter.handle_my_vacancies_button wa db1
    (db2, eff1 ++ eff2, none)
  else if button_id == "btn_callback" then
    let (db2, eff2) := seeker.handle_callback_button wa db1
    (db2, eff1 ++ eff2, none)
  else if button_id == "btn_view_applications" then
    let (db2, eff2) := seeker.handle_view_applications_button wa db1
    (db2, eff1 ++ eff2, none)
  else if strStartsWith button_id "btn_register_" then
    let (db2, eff2) := seeker.handle_register_button wa (strRemovePre button_id "btn_register_") db1
    (db2, eff1 ++ eff2, none)
  else if strStartsWith button_id "btn_apply_now_" then
    match int_of_string (strRemovePre button_id "btn_apply_now_") with
    | some vid =>
        let (db2, eff2) := seeker.handle_apply_now_button s now wa vid db1
        (db2, eff1 ++ eff2, none)
    | none => (db1, eff1, some .valueError)
  else if strStartsWith button_id "btn_update_cv_" then
    match int_of_string (strRemovePre button_id "btn_update_cv_") with
    | some vid =>
        let (db2, eff2) := seeker.handle_update_cv_button wa vid db1
        (db2, eff1 ++ eff2, none)
    | none => (db1, eff1, some .valueError)
  else
    (db1, eff1 ++ [.logWarning ("Unhandled button_id " ++ button_id ++ " from " ++ wa)], none)

/-- `_handle_list_reply`. -/
def handle_list_reply (s : Settings) (now : Nat) (wa row_id : String) (db : DB) :
    DB × List Effect :=
  if strStartsWith row_id "plan_" then
    seeker.handle_plan_selection s now wa (strRemovePre row_id "plan_") db
  else
    (db, [.logWarning ("Unhandled list row_id " ++ row_id ++ " from " ++ wa)])

/-- `_handle_flow_reply`: structural form disambiguation over the submitted
keys, in source order; unclassifiable payloads are logged and dropped. -/
def handle_flow_reply (s : Settings) (saveCv : seeker.SaveCv) (now : Nat)
    (wa : String) (fd : FlowData) (db : DB) : DB × List Effect × Option PyError :=
  if fdHasKey fd "title" && fdHasKey fd "description" then
    recruiter.handle_post_vacancy_flow_completion s wa fd db
  else if fdHasKey fd "skills" then
    let (db1, eff1) := seeker.handle_registration_flow_completion s saveCv now wa fd db
    (db1, eff1, none)
  else if fdHasKey fd "media_id" && !(fdHasKey fd "skills") then
    let (db1, eff1) := seeker.handle_cv_update_flow_completion saveCv wa fd db
    (db1, eff1, none)
  else if fdHasKey fd "company" && fdHasKey fd "location" then
    recruiter.handle_registration_flow_completion wa fd db
  else
    (db, [.logWarning ("Could not identify flow from payload from " ++ wa)], none)

/-- The four form identities plus the unclassifiable case, exactly the
if-chain of `_handle_flow_reply`. -/
inductive FormRoute where
  | vacancyPost
  | seekerRegistration
  | cvUpdate
  | recruiterRegistration
  | unclassified
deriving DecidableEq

/-- The routing decision of `_handle_flow_reply` in isolation. -/
def flowRoute (fd : FlowData) : FormRoute :=
  if fdHasKey fd "title" && fdHasKey fd "description" then .vacancyPost
  else if fdHasKey fd "skills" then .seekerRegistration
  else if fdHasKey fd "media_id" && !(fdHasKey fd "skills") then .cvUpdate
  else if fdHasKey fd "company" && fdHasKey fd "location" then .recruiterRegistration
  else .unclassified

/-- `_handle_document`: only `seeker_updating_cv` accepts the upload as a CV;
any other state gets the generic notice and no mutation. -/
def handle_document (saveCv : seeker.SaveCv) (wa media_id mime : String)
    (db : DB) : DB × List Effect :=
  match db.findState wa with
  | some st =>
      if st.state == "seeker_updating_cv" then
        match pyTruthy (saveCv wa media_id mime) with
        | some cv_path =>
            match db.findCandidate wa with
            | some candidate =>
                let db1 := db.updateCandidate candidate.id (fun c =>
                  { c with cv_path := some cv_path, cv_updates_used := c.cv_updates_used + 1 })
                (db1, [.sendText wa (cv_update_confirmation_body candidate)])
            | none => (db, [])
        | none =>
            (db, [.sendText wa "❌ Invalid file format. Please upload a PDF or CSV."])
      else
        (db, [.sendText wa "📎 Got your file! To update your CV, please tap an apply link first."])
  | none =>
      (db, [.sendText wa "📎 Got your file! To update your CV, please tap an apply link first."])

/-- The body of `dispatch`'s `try` block: track the sender's activity, then
route by message type.  The exception component is whatever escapes the
routing helpers (`ValueError` from `int()`, `IntegrityError` from commits,
`KeyError`/`IndexError` from payload destructuring). -/
def dispatch_value (s : Settings) (saveCv : seeker.SaveCv) (now : Nat)
    (ev : InEvent) (db : DB) : DB × List Effect × Option PyError :=
  match ev with
  | .malformed => (db, [], some .keyError)
  | .statusUpdate => (db, [.logDebug "Status update"], none)
  | .textMsg wa body =>
      let db1 := track_user_message wa db
      let (db2, eff) := handle_text s now wa body db1
      (db2, .logInfo ("Incoming text from " ++ wa) :: eff, none)
  | .buttonReply wa button_id =>
      let db1 := track_user_message wa db
      let (db2, eff, exn) := handle_button s now wa button_id db1
      (db2, .logInfo ("Incoming interactive from " ++ wa) :: eff, exn)
  | .listReply wa row_id =>
      let db1 := track_user_message wa db
      let (db2, eff) := handle_list_reply s now wa row_id db1
      (db2, .logInfo ("Incoming interactive from " ++ wa) :: eff, none)
  | .flowReply wa fd =>
      let db1 := track_user_message wa db
      let (db2, eff, exn) := handle_flow_reply s saveCv now wa fd db1
      (db2, .logInfo ("Incoming interactive from " ++ wa) :: eff, exn)
  | .templateButton wa payload =>
      let db1 := track_user_message wa db
      let button_id :=
        if payload == "Post Vacancy" then "btn_post_vacancy"
        else if payload == "My Vacancies" then "btn_my_vacancies"
        else payload
      let (db2, eff, exn) := handle_button s now wa button_id db1
      (db2, .logInfo ("Incoming button from " ++ wa) :: eff, exn)
  | .document wa media_id mime =>
      let db1 := track_user_message wa db
      let (db2, eff) := handle_document saveCv wa media_id mime db1
      (db2, .logInfo ("Incoming document from " ++ wa) :: eff, none)

/-- `dispatch`: the `try` block above wrapped in
`except (KeyError, IndexError)` — only those two classes are converted to the
"Unexpected payload structure" warning; every other exception escapes the
dispatch call. -/
def dispatch (s : Settings) (saveCv : seeker.SaveCv) (now : Nat)
    (ev : InEvent) (db : DB) : DB × List Effect × Option PyError :=
  let (db1, eff, exn) := dispatch_value s saveCv now ev db
  match exn with
  | some .keyError => (db1, eff ++ [.logWarning "Unexpected payload structure"], none)
  | some .indexError => (db1, eff ++ [.logWarning "Unexpected payload structure"], none)
  | _ => (db1, eff, exn)

/-- `receive_webhook` (`app/routers/webhook.py`): calls `dispatch` inside a
blanket `except Exception` that logs the error; the HTTP response is
`{"status": "ok"}` (200) on both paths, so the exception component of the
result is always `none`. -/
def receive_webhook (s : Settings) (saveCv : seeker.SaveCv) (now : Nat)
    (ev : InEvent) (db : DB) : DB × List Effect :=
  let (db1, eff, exn) := dispatch s saveCv now ev db
  match exn with
  | some _ => (db1, eff ++ [.logException "Error dispatching webhook"])
  | none => (db1, eff)

-- ── Concrete fixtures for witnesses and counterexamples ──────────────────────

/-- Settings with subscription enforcement off (the shipped default). -/
def s_off : Settings := { subscription_enabled := false, admin_wa_number := "" }

/-- Settings with subscription enforcement on. -/
def s_on : Settings := { subscription_enabled := true, admin_wa_number := "" }

/-- A media store that rejects every upload. -/
def noCv : seeker.SaveCv := fun _ _ _ => none

/-- A fresh, empty store. -/
def emptyDB : DB :=
  { plans := [], recruiters := [], candidates := [], vacancies := [],
    applications := [], callbacks := [], states := [],
    next_recruiter_id := 1, next_vacancy_id := 1, next_candidate_id := 1,
    next_application_id := 1, next_callback_id := 1 }

/-- A registered candidate with no plan fields set. -/
def cand1 : Candidate :=
  { id := 1, wa_number := "917001", name := "Asha", location := none,
    skills := some "sales", cv_path := none, cv_updates_used := 0,
    subscription_plan_id := none, plan_expiry := none, applications_used := 0,
    free_trial_used := false, registration_complete := true }

/-- An approved vacancy. -/
def vac1 : JobVacancy :=
  { id := 1, job_code := "JC:1001", recruiter_id := 1, title := "Engineer",
    company := none, location := "Kochi", description := none,
    salary_range := none, experience_required := none, contact_info := none,
    status := .approved, rejection_reason := none }

/-- A registered recruiter. -/
def rec1 : Recruiter :=
  { id := 1, wa_number := "917000", name := "Ravi", company := none,
    location := none, email := none }

/-- The free-trial catalog plan. -/
def planTrial : SubscriptionPlan :=
  { id := 1, name := .free_trial, display_name := "Free Trial", price_inr := 0,
    duration_days := 15, max_applications := some 3 }

/-- The basic catalog plan. -/
def planBasic : SubscriptionPlan :=
  { id := 2, name := .basic, display_name := "Basic", price_inr := 99,
    duration_days := 30, max_applications := some 50 }

/-- One candidate, one vacancy, and an existing application for the pair. -/
def db_applied : DB :=
  { emptyDB with
    candidates := [cand1], vacancies := [vac1],
    applications := [({ id := 1, candidate_id := 1, vacancy_id := 1, status := .applied } : CandidateApplication)],
    next_application_id := 2, next_candidate_id := 2, next_vacancy_id := 2 }

/-- A store whose only vacancy has a small primary key. -/
def db_lowid : DB := { emptyDB with vacancies := [{ vac1 with id := 5 }], next_vacancy_id := 6 }

/-- A store with one registered recruiter. -/
def db_rec : DB := { emptyDB with recruiters := [rec1], next_recruiter_id := 2 }

/-- A candidate with a future expiry but no assigned plan. -/
def cand_expiry_noplan : Candidate := { cand1 with plan_expiry := some 100 }

/-- Catalog plus a candidate who already used the free trial. -/
def db_trial_used : DB :=
  { emptyDB with
    plans := [planTrial, planBasic],
    candidates := [{ cand1 with free_trial_used := true }],
    next_candidate_id := 2 }

-- ── Structural helper lemmas ─────────────────────────────────────────────────

theorem getOrCreateState_candidates (db : DB) (wa : String) :
    ((db.getOrCreateState wa).2).candidates = db.candidates := by
  unfold DB.getOrCreateState
  cases db.findState wa <;> rfl

theorem getOrCreateState_applications (db : DB) (wa : String) :
    ((db.getOrCreateState wa).2).applications = db.applications := by
  unfold DB.getOrCreateState
  cases db.findState wa <;> rfl

theorem setState_candidates (db : DB) (wa st : String) (ctx : List (String × String)) :
    (db.setState wa st ctx).candidates = db.candidates := by
  unfold DB.setState
  rw [getOrCreateState_candidates]

theorem setState_applications (db : DB) (wa st : String) (ctx : List (String × String)) :
    (db.setState wa st ctx).applications = db.applications := by
  unfold DB.setState
  rw [getOrCreateState_applications]

theorem updateCandidate_applications (db : DB) (cid : Nat) (f : Candidate → Candidate) :
    (db.updateCandidate cid f).applications = db.applications := rfl

theorem setState_recruiters (db : DB) (wa st : String) (ctx : List (String × String)) :
    (db.setState wa st ctx).recruiters = db.recruiters := by
  unfold DB.setState DB.getOrCreateState
  cases db.findState wa <;> rfl

theorem findCandidate_congr {db1 db2 : DB} (h : db1.candidates = db2.candidates)
    (wa : String) : db1.findCandidate wa = db2.findCandidate wa := by
  unfold DB.findCandidate
  rw [h]

theorem show_job_apply_prompt_candidates (s : Settings) (now : Nat) (wa : String)
    (c : Candidate) (v : JobVacancy) (db : DB) :
    (seeker.show_job_apply_prompt s now wa c v db).1.candidates = db.candidates := by
  unfold seeker.show_job_apply_prompt
  cases hb : has_active_plan s db c now with
  | false => rfl
  | true =>
      cases happ : db.applications.find?
          (fun a => a.candidate_id == c.id && a.vacancy_id == v.id) with
      | some existing => simp [happ]
      | none => simp [happ, setState_candidates]

theorem findCandidate_update (db : DB) (wa : String) (c : Candidate)
    (f : Candidate → Candidate) (hc : db.findCandidate wa = some c)
    (hf : ∀ x, (f x).wa_number = x.wa_number) :
    (db.updateCandidate c.id f).findCandidate wa = some (f c) := by
  unfold DB.findCandidate DB.updateCandidate
  unfold DB.findCandidate at hc
  rw [List.find?_map]
  have hcomp : ((fun x => x.wa_number == wa) ∘
      (fun x => if x.id == c.id then f x else x)) = fun x : Candidate => x.wa_number == wa := by
    funext x
    by_cases h : (x.id == c.id) = true <;> simp [Function.comp, h, hf]
  rw [hcomp, hc]
  simp

-- ── Facts about the job-code allocator and parser ───────────────────────────────────────────────────────

theorem lastVacancy_eq_none {t : List JobVacancy}
    (ht : lastVacancyByIdDesc t = none) : t = [] := by
  cases t with
  | nil => rfl
  | cons b t2 =>
      cases h2 : lastVacancyByIdDesc t2 with
      | none => simp [lastVacancyByIdDesc, h2] at ht
      | some w =>
          simp [lastVacancyByIdDesc, h2] at ht
          split at ht <;> simp at ht

theorem lastVacancy_mem {vs : List JobVacancy} {u : JobVacancy}
    (h : lastVacancyByIdDesc vs = some u) : u ∈ vs := by
  induction vs with
  | nil => simp [lastVacancyByIdDesc] at h
  | cons a t ih =>
      cases ht : lastVacancyByIdDesc t with
      | none =>
          simp [lastVacancyByIdDesc, ht] at h
          simp [h]
      | some w =>
          simp [lastVacancyByIdDesc, ht] at h
          by_cases hw : w.id > a.id
          · rw [if_pos hw] at h
            cases h
            exact List.mem_cons_of_mem _ (ih ht)
          · rw [if_neg hw] at h
            cases h
            exact List.mem_cons_self _ _

theorem lastVacancy_ge {vs : List JobVacancy} {u : JobVacancy}
    (h : lastVacancyByIdDesc vs = some u) : ∀ w ∈ vs, w.id ≤ u.id := by
  induction vs generalizing u with
  | nil => simp [lastVacancyByIdDesc] at h
  | cons a t ih =>
      cases ht : lastVacancyByIdDesc t with
      | none =>
          simp [lastVacancyByIdDesc, ht] at h
          have hte := lastVacancy_eq_none ht
          subst hte
          intro w hw
          rcases List.mem_cons.mp hw with h1 | h1
          · simp [h1, h]
          · simp at h1
      | some w0 =>
          simp [lastVacancyByIdDesc, ht] at h
          intro w hw
          rcases List.mem_cons.mp hw with h1 | h1
          · by_cases hgt : w0.id > a.id
            · rw [if_pos hgt] at h
              cases h
              subst h1
              omega
            · rw [if_neg hgt] at h
              cases h
              simp [h1]
          · have hle : w.id ≤ w0.id := ih ht w h1
            by_cases hgt : w0.id > a.id
            · rw [if_pos hgt] at h
              cases h
              exact hle
            · rw [if_neg hgt] at h
              cases h
              omega

theorem lastVacancy_isSome (vs : List JobVacancy) (h : vs ≠ []) :
    ∃ u, lastVacancyByIdDesc vs = some u := by
  cases vs with
  | nil => exact absurd rfl h
  | cons a t =>
      cases ht : lastVacancyByIdDesc t with
      | none => exact ⟨a, by simp [lastVacancyByIdDesc, ht]⟩
      | some w =>
          by_cases hw : w.id > a.id
          · exact ⟨w, by simp [lastVacancyByIdDesc, ht, if_pos hw]⟩
          · exact ⟨a, by simp [lastVacancyByIdDesc, ht, if_neg hw]⟩

theorem searchJC_eq_none (l : List Char) :
    searchJC l = none ↔ ∀ t, t <:+ l → jcHere t = none := by
  induction l with
  | nil =>
      constructor
      · intro _ t ht
        rw [List.suffix_nil.mp ht]
        rfl
      · intro _
        rfl
  | cons x rest ih =>
      cases h : jcHere (x :: rest) with
      | some m =>
          simp only [searchJC, h]
          constructor
          · intro hc
            cases hc
          · intro hall
            exact absurd (hall (x :: rest) (List.suffix_refl _)) (by simp [h])
      | none =>
          simp only [searchJC, h]
          rw [ih]
          constructor
          · intro hall t ht
            rcases List.suffix_cons_iff.mp ht with h1 | h1
            · subst h1
              exact h
            · exact hall t h1
          · intro hall t ht
            exact hall t (ht.trans (List.suffix_cons x rest))

theorem toUpper_digit {d : Char} (hd : d.isDigit = true) : d.toUpper = d := by
  have h1 : d.toNat ≤ 57 := by
    unfold Char.isDigit at hd
    simp [Char.le_def] at hd
    exact hd.2
  unfold Char.toUpper
  have h2 : d.isLower = false := by
    unfold Char.isLower
    simp [Char.le_def]
    intro h3
    exfalso
    have h3n : (97 : Nat) ≤ d.toNat := h3
    omega
  simp [h2]
  intro h97 _
  exfalso
  omega

theorem jcHere_some {l m : List Char} (h : jcHere l = some m) :
    ∃ ds, ds ≠ [] ∧ (∀ d ∈ ds, d.isDigit = true) ∧
      m.map Char.toUpper = 'J' :: 'C' :: ':' :: ds := by
  match l with
  | [] => cases h
  | [_] => cases h
  | [_, _] => cases h
  | j :: c :: k :: rest =>
      simp only [jcHere] at h
      by_cases hcond : ((j == 'J' || j == 'j') && (c == 'C' || c == 'c') && k == ':'
          && jcHeadDigit rest) = true
      · rw [if_pos hcond] at h
        cases h
        cases rest with
        | nil => simp [jcHeadDigit] at hcond
        | cons d rest2 =>
            simp [jcHeadDigit] at hcond
            obtain ⟨⟨⟨hj, hc⟩, hk⟩, hd⟩ := hcond
            refine ⟨(d :: rest2).takeWhile Char.isDigit, ?_, ?_, ?_⟩
            · simp [List.takeWhile, hd]
            · intro x hx
              exact List.mem_takeWhile_imp hx
            · have hdig : ((d :: rest2).takeWhile Char.isDigit).map Char.toUpper =
                  (d :: rest2).takeWhile Char.isDigit := by
                rw [List.map_congr_left (fun x hx => toUpper_digit (List.mem_takeWhile_imp hx))]
                exact List.map_id _
              have hju : j.toUpper = 'J' := by
                rcases hj with hj | hj <;> rw [hj] <;> decide
              have hcu : c.toUpper = 'C' := by
                rcases hc with hc | hc <;> rw [hc] <;> decide
              subst hk
              simp [hju, hcu, hdig]
      · rw [if_neg hcond] at h
        cases h

theorem searchJC_some {l m : List Char} (hs : searchJC l = some m) :
    ∃ t, t <:+ l ∧ jcHere t = some m := by
  induction l with
  | nil => cases hs
  | cons x rest ih =>
      cases hj : jcHere (x :: rest) with
      | some m2 =>
          simp only [searchJC, hj] at hs
          cases hs
          exact ⟨x :: rest, List.suffix_refl _, hj⟩
      | none =>
          simp only [searchJC, hj] at hs
          obtain ⟨t, ht1, ht2⟩ := ih hs
          exact ⟨t, ht1.trans (List.suffix_cons x rest), ht2⟩

-- ── Claim theorems ───────────────────────────────────────────────────────────

/-- C6: job-code parsing matches the `JC:`+digits pattern case-insensitively
anywhere in the text — it returns `none` exactly when no position of the text
matches — and any successful result is the uppercased canonical token
`JC:<digits>`; on the spec's examples, `parse("Apply jc:1002") = "JC:1002"`
and `parse("hello") = none`. -/
theorem parse_job_code_correct (text : String) :
    (parse_job_code text = none ↔ ∀ t, t <:+ text.data → jcHere t = none) ∧
    (∀ r, parse_job_code text = some r →
      ∃ ds, ds ≠ [] ∧ (∀ d ∈ ds, d.isDigit = true) ∧
        r = String.mk ('J' :: 'C' :: ':' :: ds)) ∧
    parse_job_code "Apply jc:1002" = some "JC:1002" ∧
    parse_job_code "hello" = none := by
  refine ⟨?_, ?_, rfl, rfl⟩
  · have hmap : parse_job_code text = none ↔ searchJC text.data = none := by
      unfold parse_job_code
      cases h : searchJC text.data <;> simp [h]
    exact hmap.trans (searchJC_eq_none text.data)
  · intro r hr
    unfold parse_job_code at hr
    cases hs : searchJC text.data with
    | none => rw [hs] at hr; cases hr
    | some m =>
        rw [hs] at hr
        simp at hr
        obtain ⟨t, _, ht2⟩ := searchJC_some hs
        obtain ⟨ds, h1, h2, h3⟩ := jcHere_some ht2
        exact ⟨ds, h1, h2, by rw [← hr, h3]⟩

/-- C5 counterexample: with a single vacancy of primary key 5 in the store,
the generated code is `JC:6`, whose numeric suffix is below the claimed floor
of 1001. -/
theorem generate_job_code_no_floor :
    generate_job_code db_lowid = "JC:6" ∧ (6 : Nat) < 1001 := ⟨rfl, by decide⟩

/-- C5 amended: whenever the vacancy table is nonempty, the generated code is
the two-letter prefix, a colon, and `max id + 1` — with no floor applied; the
1001 floor only takes effect on an empty table. -/
theorem generate_job_code_eq_max_succ (db : DB) (v : JobVacancy)
    (hv : v ∈ db.vacancies) (hmax : ∀ w ∈ db.vacancies, w.id ≤ v.id) :
    generate_job_code db = "JC:" ++ toString (v.id + 1) := by
  obtain ⟨u, hu⟩ := lastVacancy_isSome db.vacancies
    (by intro he; rw [he] at hv; simp at hv)
  have h1 : u.id ≤ v.id := hmax u (lastVacancy_mem hu)
  have h2 : v.id ≤ u.id := lastVacancy_ge hu v hv
  have h3 : u.id = v.id := Nat.le_antisymm h1 h2
  simp [generate_job_code, hu, h3]

/-- Witness for the C5 amended theorem at a concrete store. -/
theorem generate_job_code_eq_max_succ_witness :
    ({ vac1 with id := 5 } : JobVacancy) ∈ db_lowid.vacancies ∧
    (∀ w ∈ db_lowid.vacancies, w.id ≤ 5) ∧
    generate_job_code db_lowid = "JC:" ++ toString (5 + 1) :=
  ⟨by decide, by decide,
   generate_job_code_eq_max_succ db_lowid { vac1 with id := 5 } (by decide) (by decide)⟩

/-- C3 counterexample: with enforcement on, a candidate with a future
`plan_expiry` but no assigned plan passes `_has_active_plan`, while the spec's
description (false when "no plan assigned") demands false. -/
theorem has_active_plan_counterexample :
    has_active_plan s_on emptyDB cand_expiry_noplan 50 = true ∧
    cand_expiry_noplan.subscription_plan_id = none ∧
    has_active_plan_spec s_on emptyDB cand_expiry_noplan 50 = false :=
  ⟨rfl, rfl, rfl⟩

/-- C3 amended: `_has_active_plan` is true iff enforcement is disabled, or
`plan_expiry` is set and not passed and the related plan row (when one
resolves) has either no cap or a cap above `applications_used`.  The "no plan
assigned" test of the claim is in reality a "no `plan_expiry`" test. -/
theorem has_active_plan_iff (s : Settings) (db : DB) (c : Candidate) (now : Nat) :
    has_active_plan s db c now = true ↔
      (s.subscription_enabled = false ∨
        ∃ e, c.plan_expiry = some e ∧ now ≤ e ∧
          ∀ plan, db.planOf c = some plan →
            ∀ cap, plan.max_applications = some cap →
              c.applications_used < cap) := by
  unfold has_active_plan
  cases hs : s.subscription_enabled with
  | false => simp
  | true =>
      simp only [Bool.not_true, Bool.false_eq_true, if_false]
      cases he : c.plan_expiry with
      | none => simp
      | some e =>
          by_cases hlt : e < now
          · simp only [if_pos hlt]
            constructor
            · intro hc
              cases hc
            · rintro (h1 | ⟨e1, he1, hle, _⟩)
              · cases h1
              · cases he1
                omega
          · simp only [if_neg hlt]
            have hnow : now ≤ e := Nat.le_of_not_lt hlt
            cases hp : db.planOf c with
            | none =>
                constructor
                · intro _
                  exact Or.inr ⟨e, rfl, hnow, fun plan hplan => by cases hplan⟩
                · intro _
                  trivial
            | some plan =>
                cases hcap : plan.max_applications with
                | none =>
                    constructor
                    · intro _
                      refine Or.inr ⟨e, rfl, hnow, fun plan1 hplan1 cap hcap1 => ?_⟩
                      cases hplan1
                      rw [hcap] at hcap1
                      cases hcap1
                    · intro _
                      simp [hcap]
                | some cap =>
                    constructor
                    · intro hc
                      refine Or.inr ⟨e, rfl, hnow, fun plan1 hplan1 cap1 hcap1 => ?_⟩
                      cases hplan1
                      rw [hcap] at hcap1
                      cases hcap1
                      simp [hcap] at hc
                      omega
                    · rintro (h1 | ⟨e1, he1, _, hall⟩)
                      · cases h1
                      · cases he1
                        have := hall plan rfl cap hcap
                        simp [hcap]
                        omega

/-- C9: a vacancy-post form completion from an address with no `Recruiter`
row leaves the whole store untouched (no `JobVacancy` created, no state
change), produces exactly one error log, sends nothing, and raises nothing. -/
theorem post_vacancy_no_recruiter (s : Settings) (wa : String) (fd : FlowData)
    (db : DB) (h : db.findRecruiter wa = none) :
    recruiter.handle_post_vacancy_flow_completion s wa fd db =
      (db, [Effect.logError ("Post vacancy flow completed but recruiter " ++ wa ++ " not found")], none) := by
  simp [recruiter.handle_post_vacancy_flow_completion, h]

/-- Witness for C9 at a concrete store with no recruiters. -/
theorem post_vacancy_no_recruiter_witness :
    emptyDB.findRecruiter "919999" = none ∧
    recruiter.handle_post_vacancy_flow_completion s_off "919999" [] emptyDB =
      (emptyDB, [Effect.logError ("Post vacancy flow completed but recruiter " ++ "919999" ++ " not found")], none) :=
  ⟨rfl, post_vacancy_no_recruiter s_off "919999" [] emptyDB rfl⟩

/-- C10: `handle_apply_now_button` returns silently — store unchanged, no
application inserted, no counter bump, no message, no state change — when the
candidate row or the vacancy row is missing. -/
theorem apply_now_missing_row_silent (s : Settings) (now : Nat) (wa : String)
    (vid : Int) (db : DB)
    (h : db.findCandidate wa = none ∨ db.findVacancyById vid = none) :
    seeker.handle_apply_now_button s now wa vid db = (db, []) := by
  unfold seeker.handle_apply_now_button
  cases hc : db.findCandidate wa with
  | none => rfl
  | some c =>
      cases hv : db.findVacancyById vid with
      | none => rfl
      | some v =>
          rcases h with h | h
          · rw [hc] at h
            cases h
          · rw [hv] at h
            cases h

/-- Witness for C10 at the empty store. -/
theorem apply_now_missing_row_silent_witness :
    (emptyDB.findCandidate "917001" = none ∨ emptyDB.findVacancyById 1 = none) ∧
    seeker.handle_apply_now_button s_off 0 "917001" 1 emptyDB = (emptyDB, []) :=
  ⟨Or.inl rfl, apply_now_missing_row_silent s_off 0 "917001" 1 emptyDB (Or.inl rfl)⟩

/-- C1 counterexample: with one application already on record for candidate 1
and vacancy 1 (and enforcement off, the shipped default), a direct second
`handle_apply_now_button` invocation inserts a second row for the same pair
and replies with a fresh confirmation, not the existing status. -/
theorem apply_now_duplicate_insert :
    db_applied.applications.length = 1 ∧
    (seeker.handle_apply_now_button s_off 0 "917001" 1 db_applied).1.applications.length = 2 ∧
    ((seeker.handle_apply_now_button s_off 0 "917001" 1 db_applied).1.applications.filter
        (fun a => a.candidate_id == 1 && a.vacancy_id == 1)).length = 2 ∧
    (seeker.handle_apply_now_button s_off 0 "917001" 1 db_applied).2 =
      [Effect.sendButtons "917001" (application_confirmation_body cand1 vac1)
        [("btn_view_applications", "View Applications")]] :=
  ⟨rfl, rfl, rfl, rfl⟩

/-- C1 amended: the one-application-per-pair check lives only in the
job-detail prompt — `_show_job_apply_prompt` reports the existing
application's status and inserts nothing — while `handle_apply_now_button`
performs no duplicate check and appends a fresh `applied` row whenever the
candidate and vacancy resolve and the entitlement re-check passes, even when
an application for the pair already exists. -/
theorem apply_prompt_reports_existing (s : Settings) (now : Nat) (wa : String)
    (c : Candidate) (v : JobVacancy) (db : DB) (existing : CandidateApplication)
    (hc : db.findCandidate wa = some c)
    (happ : db.applications.find?
      (fun a => a.candidate_id == c.id && a.vacancy_id == v.id) = some existing)
    (hplan : has_active_plan s db c now = true) :
    seeker.show_job_apply_prompt s now wa c v db =
      (db, [Effect.sendText wa ("ℹ️ You have already applied for *" ++ v.title ++
        "*. Status: _" ++ existing.status.value ++ "_")]) ∧
    (db.findVacancyById (v.id : Int) = some v →
      (seeker.handle_apply_now_button s now wa (v.id : Int) db).1.applications =
        db.applications ++
          [({ id := db.next_application_id, candidate_id := c.id,
              vacancy_id := v.id, status := .applied } : CandidateApplication)]) := by
  constructor
  · unfold seeker.show_job_apply_prompt
    rw [hplan]
    simp [happ]
  · intro hv
    unfold seeker.handle_apply_now_button
    rw [hc, hv]
    simp [hplan, setState_applications, updateCandidate_applications]

/-- Witness for the C1 amended theorem at the concrete store `db_applied`. -/
theorem apply_prompt_reports_existing_witness :
    db_applied.findCandidate "917001" = some cand1 ∧
    db_applied.applications.find?
      (fun a => a.candidate_id == cand1.id && a.vacancy_id == vac1.id) =
      some ({ id := 1, candidate_id := 1, vacancy_id := 1, status := .applied } : CandidateApplication) ∧
    has_active_plan s_off db_applied cand1 0 = true ∧
    seeker.show_job_apply_prompt s_off 0 "917001" cand1 vac1 db_applied =
      (db_applied, [Effect.sendText "917001" ("ℹ️ You have already applied for *" ++ vac1.title ++
        "*. Status: _" ++ ApplicationStatus.applied.value ++ "_")]) ∧
    (seeker.handle_apply_now_button s_off 0 "917001" (vac1.id : Int) db_applied).1.applications =
      db_applied.applications ++
        [({ id := db_applied.next_application_id, candidate_id := cand1.id,
            vacancy_id := vac1.id, status := .applied } : CandidateApplication)] :=
  ⟨rfl, rfl, rfl,
   (apply_prompt_reports_existing s_off 0 "917001" cand1 vac1 db_applied
      { id := 1, candidate_id := 1, vacancy_id := 1, status := .applied }
      rfl rfl rfl).1,
   (apply_prompt_reports_existing s_off 0 "917001" cand1 vac1 db_applied
      { id := 1, candidate_id := 1, vacancy_id := 1, status := .applied }
      rfl rfl rfl).2 rfl⟩

/-- C8 counterexample: a second recruiter-registration completion for an
already-registered address does not create a second identity record — the
unique constraint on `wa_number` makes the insert fail with `IntegrityError`
and the table keeps its single row. -/
theorem recruiter_reregistration_counterexample :
    recruiter.handle_registration_flow_completion "917000" [] db_rec =
      (db_rec, [], some PyError.integrityError) ∧
    db_rec.recruiters.length = 1 :=
  ⟨rfl, rfl⟩

/-- C8 amended: the handler never deduplicates or updates — for a fresh
address it blindly appends a new `Recruiter` built from the form fields, and
for an already-registered address the commit violates the unique `wa_number`
column and raises `IntegrityError`, leaving the store unchanged and sending
nothing. -/
theorem recruiter_reregistration_behavior (wa : String) (fd : FlowData) (db : DB) :
    (db.findRecruiter wa = none →
      (recruiter.handle_registration_flow_completion wa fd db).1.recruiters =
        db.recruiters ++
          [({ id := db.next_recruiter_id, wa_number := wa,
              name := fdGetD fd "name" "", company := fdLookup fd "company",
              location := fdLookup fd "location", email := fdLookup fd "email" } : Recruiter)]) ∧
    (∀ r0, db.findRecruiter wa = some r0 →
      recruiter.handle_registration_flow_completion wa fd db =
        (db, [], some PyError.integrityError)) := by
  constructor
  · intro hnone
    have hany : db.recruiters.any (fun r => r.wa_number == wa) = false := by
      rw [List.any_eq_false]
      exact List.find?_eq_none.mp hnone
    unfold recruiter.handle_registration_flow_completion
    rw [hany]
    simp [DB.setState, DB.getOrCreateState]
    cases h : DB.findState
        { db with
          recruiters := db.recruiters ++
            [({ id := db.next_recruiter_id, wa_number := wa,
                name := fdGetD fd "name" "", company := fdLookup fd "company",
                location := fdLookup fd "location", email := fdLookup fd "email" } : Recruiter)],
          next_recruiter_id := db.next_recruiter_id + 1 } wa <;> simp [h]
  · intro r0 hsome
    have hany : db.recruiters.any (fun r => r.wa_number == wa) = true := by
      rcases List.find?_some hsome with h1
      have hmem := List.mem_of_find?_eq_some hsome
      exact List.any_eq_true.mpr ⟨r0, hmem, h1⟩
    unfold recruiter.handle_registration_flow_completion
    rw [hany]
    rfl

/-- Witness for the C8 amended theorem: fresh address appended, registered
address rejected. -/
theorem recruiter_reregistration_behavior_witness :
    (emptyDB.findRecruiter "917000" = none ∧
      (recruiter.handle_registration_flow_completion "917000" [] emptyDB).1.recruiters =
        emptyDB.recruiters ++
          [({ id := 1, wa_number := "917000", name := "", company := none,
              location := none, email := none } : Recruiter)]) ∧
    (db_rec.findRecruiter "917000" = some rec1 ∧
      recruiter.handle_registration_flow_completion "917000" [] db_rec =
        (db_rec, [], some PyError.integrityError)) :=
  ⟨⟨rfl, (recruiter_reregistration_behavior "917000" [] emptyDB).1 rfl⟩,
   ⟨rfl, (recruiter_reregistration_behavior "917000" [] db_rec).2 rec1 rfl⟩⟩

theorem handle_plan_selection_else_candidates (s : Settings) (now : Nat)
    (wa plan_name : String) (db : DB) (c : Candidate) (plan : SubscriptionPlan)
    (hc : db.findCandidate wa = some c)
    (hp : db.findPlanByName plan_name = some plan)
    (hft : ¬(plan.name = .free_trial ∧ c.free_trial_used = true)) :
    (seeker.handle_plan_selection s now wa plan_name db).1.candidates =
      (db.updateCandidate c.id (fun x =>
        { x with
          subscription_plan_id := some plan.id,
          plan_expiry := some (now + plan.duration_days * 86400),
          applications_used := 0,
          registration_complete := true,
          free_trial_used := if plan.name = .free_trial then true else x.free_trial_used })).candidates := by
  unfold seeker.handle_plan_selection
  simp only [hc, hp]
  rw [if_neg hft]
  split
  · rw [getOrCreateState_candidates]
  · split
    · rw [getOrCreateState_candidates]
    · split
      · rw [getOrCreateState_candidates]
      · rw [show_job_apply_prompt_candidates, getOrCreateState_candidates]

/-- C4: re-selecting the free trial after `free_trial_used` re-offers the plan
list (a warning text followed by the catalog list) and leaves every candidate
row — hence `plan_expiry`, `subscription_plan_ref`, `applications_used`,
`registration_complete` — unchanged; any other valid selection rewrites the
candidate with `subscription_plan_id` set, `plan_expiry = now + duration_days`
(in seconds), `applications_used = 0` and `registration_complete = true`. -/
theorem plan_selection_frame (s : Settings) (now : Nat) (wa plan_name : String)
    (db : DB) (c : Candidate) (plan : SubscriptionPlan)
    (hc : db.findCandidate wa = some c)
    (hp : db.findPlanByName plan_name = some plan) :
    ((plan.name = .free_trial ∧ c.free_trial_used = true) →
      (seeker.handle_plan_selection s now wa plan_name db).1.candidates = db.candidates ∧
      (seeker.handle_plan_selection s now wa plan_name db).2 =
        Effect.sendText wa "⚠️ You've already used the Free Trial. Please choose a paid plan." ::
          (seeker.send_plan_selection wa db).2 ∧
      (seeker.send_plan_selection wa db).2 =
        [Effect.sendList wa
          "🎉 Registration info saved!\n\nChoose a subscription plan to start applying for jobs."
          (db.plans.map (fun p =>
            ("plan_" ++ p.name.value,
             p.display_name ++ " – ₹" ++ toString p.price_inr,
             toString p.duration_days ++ " days")))]) ∧
    (¬(plan.name = .free_trial ∧ c.free_trial_used = true) →
      (seeker.handle_plan_selection s now wa plan_name db).1.findCandidate wa =
        some { c with
               subscription_plan_id := some plan.id,
               plan_expiry := some (now + plan.duration_days * 86400),
               applications_used := 0,
               registration_complete := true,
               free_trial_used := if plan.name = .free_trial then true else c.free_trial_used }) := by
  constructor
  · intro hft
    unfold seeker.handle_plan_selection
    simp only [hc, hp]
    rw [if_pos hft]
    refine ⟨?_, rfl, rfl⟩
    show (seeker.send_plan_selection wa db).1.candidates = db.candidates
    unfold seeker.send_plan_selection
    rw [setState_candidates]
  · intro hft
    rw [findCandidate_congr
      (handle_plan_selection_else_candidates s now wa plan_name db c plan hc hp hft) wa]
    exact findCandidate_update db wa c _ hc (fun x => rfl)

/-- Witness for C4: the theorem applied at a concrete catalog and candidate,
once for a blocked free-trial re-selection and once for a basic-plan
selection. -/
theorem plan_selection_frame_witness :
    (db_trial_used.findCandidate "917001" = some { cand1 with free_trial_used := true } ∧
     db_trial_used.findPlanByName "free_trial" = some planTrial ∧
     (seeker.handle_plan_selection s_on 0 "917001" "free_trial" db_trial_used).1.candidates =
       db_trial_used.candidates) ∧
    (db_trial_used.findPlanByName "basic" = some planBasic ∧
     (seeker.handle_plan_selection s_on 0 "917001" "basic" db_trial_used).1.findCandidate "917001" =
       some { { cand1 with free_trial_used := true } with
              subscription_plan_id := some planBasic.id,
              plan_expiry := some (0 + planBasic.duration_days * 86400),
              applications_used := 0,
              registration_complete := true,
              free_trial_used := if planBasic.name = .free_trial then true
                                 else ({ cand1 with free_trial_used := true } : Candidate).free_trial_used }) :=
  ⟨⟨rfl, rfl,
    ((plan_selection_frame s_on 0 "917001" "free_trial" db_trial_used
        { cand1 with free_trial_used := true } planTrial rfl rfl).1 ⟨rfl, rfl⟩).1⟩,
   ⟨rfl,
    (plan_selection_frame s_on 0 "917001" "basic" db_trial_used
        { cand1 with free_trial_used := true } planBasic rfl rfl).2
      (by intro h; exact absurd h.1 (by decide))⟩⟩

/-- C7: form identity is decided by key presence in the source's exact
priority order (first match wins; a payload with `skills` as well as
`title`+`description` is a vacancy post), and an unclassifiable payload is
logged and dropped — store unchanged, no handler invoked, nothing sent and no
exception raised. -/
theorem flow_reply_routing (s : Settings) (saveCv : seeker.SaveCv) (now : Nat)
    (wa : String) (fd : FlowData) (db : DB) :
    handle_flow_reply s saveCv now wa fd db =
      (match flowRoute fd with
       | .vacancyPost => recruiter.handle_post_vacancy_flow_completion s wa fd db
       | .seekerRegistration =>
           ((seeker.handle_registration_flow_completion s saveCv now wa fd db).1,
            (seeker.handle_registration_flow_completion s saveCv now wa fd db).2, none)
       | .cvUpdate =>
           ((seeker.handle_cv_update_flow_completion saveCv wa fd db).1,
            (seeker.handle_cv_update_flow_completion saveCv wa fd db).2, none)
       | .recruiterRegistration => recruiter.handle_registration_flow_completion wa fd db
       | .unclassified =>
           (db, [Effect.logWarning ("Could not identify flow from payload from " ++ wa)], none)) ∧
    (flowRoute fd = .vacancyPost ↔
       fdHasKey fd "title" = true ∧ fdHasKey fd "description" = true) ∧
    (flowRoute fd = .seekerRegistration ↔
       ¬(fdHasKey fd "title" = true ∧ fdHasKey fd "description" = true) ∧
       fdHasKey fd "skills" = true) ∧
    (flowRoute fd = .cvUpdate ↔
       ¬(fdHasKey fd "title" = true ∧ fdHasKey fd "description" = true) ∧
       fdHasKey fd "skills" = false ∧ fdHasKey fd "media_id" = true) ∧
    (flowRoute fd = .recruiterRegistration ↔
       ¬(fdHasKey fd "title" = true ∧ fdHasKey fd "description" = true) ∧
       fdHasKey fd "skills" = false ∧ fdHasKey fd "media_id" = false ∧
       fdHasKey fd "company" = true ∧ fdHasKey fd "location" = true) := by
  cases h1t : fdHasKey fd "title" <;> cases h1d : fdHasKey fd "description" <;>
    cases h2 : fdHasKey fd "skills" <;> cases h3 : fdHasKey fd "media_id" <;>
    cases h4c : fdHasKey fd "company" <;> cases h4l : fdHasKey fd "location" <;>
    simp [handle_flow_reply, flowRoute, h1t, h1d, h2, h3, h4c, h4l]

-- ── C2 auxiliary string facts ────────────────────────────────────────────────

theorem listHasPre_refl_append (p rest : List Char) : listHasPre p (p ++ rest) = true := by
  induction p with
  | nil => rfl
  | cons a t ih => simp [listHasPre, ih]

theorem strStartsWith_append (p s : String) : strStartsWith (p ++ s) p = true := by
  unfold strStartsWith
  rw [String.data_append]
  exact listHasPre_refl_append _ _

theorem strRemovePre_append (p s : String) : strRemovePre (p ++ s) p = s := by
  unfold strRemovePre
  simp [strStartsWith_append, String.data_append, List.drop_left]

theorem append_ne_of_listHasPre_false (p s q : String)
    (h : listHasPre p.data q.data = false) : (p ++ s) ≠ q := by
  intro he
  have hd : listHasPre p.data ((p ++ s).data) = true := by
    rw [String.data_append]
    exact listHasPre_refl_append _ _
  rw [he, h] at hd
  cases hd

theorem listHasPre_append_false {p q : List Char} (t : List Char)
    (hlen : p.length ≤ q.length) (h : listHasPre p q = false) :
    listHasPre p (q ++ t) = false := by
  induction p generalizing q with
  | nil => cases h
  | cons a ps ih =>
      cases q with
      | nil => simp at hlen
      | cons b qs =>
          rw [List.cons_append]
          cases hab : (a == b) with
          | false => simp [listHasPre, hab]
          | true =>
              have h2 : listHasPre ps qs = false := by
                cases hx : listHasPre ps qs with
                | false => rfl
                | true => simp [listHasPre, hab, hx] at h
              simp only [listHasPre, hab, Bool.true_and]
              exact ih (by simpa using Nat.le_of_succ_le_succ hlen) h2

theorem handle_button_bad_suffix (s : Settings) (now : Nat) (wa suffix : String)
    (db : DB) (h : int_of_string suffix = none) :
    handle_button s now wa ("btn_apply_now_" ++ suffix) db =
      (db, [], some PyError.valueError) ∧
    handle_button s now wa ("btn_update_cv_" ++ suffix) db =
      (db, [], some PyError.valueError) := by
  constructor
  · have m1 : (("btn_apply_now_" ++ suffix) == "menu_how_it_works") = false :=
      beq_eq_false_iff_ne.mpr (append_ne_of_listHasPre_false _ _ _ rfl)
    have m2 : (("btn_apply_now_" ++ suffix) == "menu_recruiter") = false :=
      beq_eq_false_iff_ne.mpr (append_ne_of_listHasPre_false _ _ _ rfl)
    have m3 : (("btn_apply_now_" ++ suffix) == "menu_seeker") = false :=
      beq_eq_false_iff_ne.mpr (append_ne_of_listHasPre_false _ _ _ rfl)
    have b1 : (("btn_apply_now_" ++ suffix) == "btn_post_vacancy") = false :=
      beq_eq_false_iff_ne.mpr (append_ne_of_listHasPre_false _ _ _ rfl)
    have b2 : (("btn_apply_now_" ++ suffix) == "btn_my_vacancies") = false :=
      beq_eq_false_iff_ne.mpr (append_ne_of_listHasPre_false _ _ _ rfl)
    have b3 : (("btn_apply_now_" ++ suffix) == "btn_callback") = false :=
      beq_eq_false_iff_ne.mpr (append_ne_of_listHasPre_false _ _ _ rfl)
    have b4 : (("btn_apply_now_" ++ suffix) == "btn_view_applications") = false :=
      beq_eq_false_iff_ne.mpr (append_ne_of_listHasPre_false _ _ _ rfl)
    have r1 : strStartsWith ("btn_apply_now_" ++ suffix) "btn_register_" = false := by
      unfold strStartsWith
      rw [String.data_append]
      exact listHasPre_append_false _ (by decide) rfl
    have a1 : strStartsWith ("btn_apply_now_" ++ suffix) "btn_apply_now_" = true :=
      strStartsWith_append _ _
    have hg : global_handler.handle_global_button wa ("btn_apply_now_" ++ suffix) db =
        (false, db, []) := by
      unfold global_handler.handle_global_button
      simp [m1, m2, m3]
    unfold handle_button
    rw [hg]
    simp [b1, b2, b3, b4, r1, a1, strRemovePre_append, h]
  · have m1 : (("btn_update_cv_" ++ suffix) == "menu_how_it_works") = false :=
      beq_eq_false_iff_ne.mpr (append_ne_of_listHasPre_false _ _ _ rfl)
    have m2 : (("btn_update_cv_" ++ suffix) == "menu_recruiter") = false :=
      beq_eq_false_iff_ne.mpr (append_ne_of_listHasPre_false _ _ _ rfl)
    have m3 : (("btn_update_cv_" ++ suffix) == "menu_seeker") = false :=
      beq_eq_false_iff_ne.mpr (append_ne_of_listHasPre_false _ _ _ rfl)
    have b1 : (("btn_update_cv_" ++ suffix) == "btn_post_vacancy") = false :=
      beq_eq_false_iff_ne.mpr (append_ne_of_listHasPre_false _ _ _ rfl)
    have b2 : (("btn_update_cv_" ++ suffix) == "btn_my_vacancies") = false :=
      beq_eq_false_iff_ne.mpr (append_ne_of_listHasPre_false _ _ _ rfl)
    have b3 : (("btn_update_cv_" ++ suffix) == "btn_callback") = false :=
      beq_eq_false_iff_ne.mpr (append_ne_of_listHasPre_false _ _ _ rfl)
    have b4 : (("btn_update_cv_" ++ suffix) == "btn_view_applications") = false :=
      beq_eq_false_iff_ne.mpr (append_ne_of_listHasPre_false _ _ _ rfl)
    have r1 : strStartsWith ("btn_update_cv_" ++ suffix) "btn_register_" = false := by
      unfold strStartsWith
      rw [String.data_append]
      exact listHasPre_append_false _ (by decide) rfl
    have a1 : strStartsWith ("btn_update_cv_" ++ suffix) "btn_apply_now_" = false := by
      unfold strStartsWith
      rw [String.data_append]
      exact listHasPre_append_false _ (by decide) rfl
    have u1 : strStartsWith ("btn_update_cv_" ++ suffix) "btn_update_cv_" = true :=
      strStartsWith_append _ _
    have hg : global_handler.handle_global_button wa ("btn_update_cv_" ++ suffix) db =
        (false, db, []) := by
      unfold global_handler.handle_global_button
      simp [m1, m2, m3]
    unfold handle_button
    rw [hg]
    simp [b1, b2, b3, b4, r1, a1, u1, strRemovePre_append, h]

/-- C2 counterexample: for the button id `btn_apply_now_abc` the `int()` call
raises; `dispatch`'s `except (KeyError, IndexError)` does not catch
`ValueError`, so the exception escapes the dispatch call instead of being
logged and dropped there — the only dispatch-level effect is the incoming-info
log, with no warning. -/
theorem dispatch_valueError_escape :
    (dispatch s_off noCv 0 (.buttonReply "917" "btn_apply_now_abc") emptyDB).2.2 =
      some PyError.valueError ∧
    (dispatch s_off noCv 0 (.buttonReply "917" "btn_apply_now_abc") emptyDB).2.1 =
      [Effect.logInfo ("Incoming interactive from " ++ "917")] :=
  ⟨rfl, rfl⟩

/-- C2 amended: a `btn_apply_now_`/`btn_update_cv_` id whose suffix `int()`
rejects makes `_handle_button` raise `ValueError`; the exception escapes the
`dispatch` call (its handler covers only `KeyError`/`IndexError`), and it is
the webhook route's blanket `except Exception` that logs it and drops it, so
the sender receives nothing and the HTTP response is still 200. -/
theorem dispatch_nonnumeric_suffix (s : Settings) (saveCv : seeker.SaveCv)
    (now : Nat) (wa suffix : String) (db : DB)
    (h : int_of_string suffix = none) :
    dispatch s saveCv now (.buttonReply wa ("btn_apply_now_" ++ suffix)) db =
      (track_user_message wa db, [Effect.logInfo ("Incoming interactive from " ++ wa)],
       some PyError.valueError) ∧
    dispatch s saveCv now (.buttonReply wa ("btn_update_cv_" ++ suffix)) db =
      (track_user_message wa db, [Effect.logInfo ("Incoming interactive from " ++ wa)],
       some PyError.valueError) ∧
    receive_webhook s saveCv now (.buttonReply wa ("btn_apply_now_" ++ suffix)) db =
      (track_user_message wa db,
       [Effect.logInfo ("Incoming interactive from " ++ wa),
        Effect.logException "Error dispatching webhook"]) ∧
    receive_webhook s saveCv now (.buttonReply wa ("btn_update_cv_" ++ suffix)) db =
      (track_user_message wa db,
       [Effect.logInfo ("Incoming interactive from " ++ wa),
        Effect.logException "Error dispatching webhook"]) := by
  obtain ⟨ha, hu⟩ := handle_button_bad_suffix s now wa suffix (track_user_message wa db) h
  refine ⟨?_, ?_, ?_, ?_⟩ <;>
    simp [dispatch, dispatch_value, receive_webhook, ha, hu]

/-- Witness for the C2 amended theorem at the concrete id suffix `abc`. -/
theorem dispatch_nonnumeric_suffix_witness :
    int_of_string "abc" = none ∧
    dispatch s_off noCv 0 (.buttonReply "917" ("btn_apply_now_" ++ "abc")) emptyDB =
      (track_user_message "917" emptyDB,
       [Effect.logInfo ("Incoming interactive from " ++ "917")], some PyError.valueError) :=
  ⟨rfl, (dispatch_nonnumeric_suffix s_off noCv 0 "917" "abc" emptyDB rfl).1⟩

end JobInfo
